import Mathlib

/-!
Verification of the lander-operation coordination core of `ow_autonomy`,
shallowly embedded from `src/plexil-adapter/OwInterface.cpp`.

The embedding models:
  * the operation registry (`Running` map, `mark_operation_running`,
    `mark_operation_finished`),
  * the generic action dispatch path (`runAction` and the per-operation
    entry points that mark the operation running and invoke it),
  * the pan/tilt sample-driven completion detector (`managePanTilt`),
  * the edge-triggered fault tracker (`checkFaultMessages` and the four
    per-domain fault callbacks),
  * joint telemetry and torque-limit tracking (`handle_overtorque`,
    `jointStatesCallback`),
  * the antenna command entry points (`panAntenna`, `tiltAntenna`).

Angles and efforts are modelled over `ℚ` (the C++ `double`s carry exact
decimal constants in all code paths relevant here); times are `ℚ` seconds,
with `ros::Time::now()` passed in explicitly as a parameter.  Side effects
(ROS log lines, `publish` notifications, and the PLEXIL status callback)
are modelled as an explicit event list.  The radian conversion `degrees *
M_PI / 180` performed when publishing an antenna command is irrational and
is recorded in the event stream by its degree value instead; no claim
depends on the numeric radian value.
-/

namespace OwSpec

/-- The fixed catalog of lander operations, `enum LanderOps` in the source. -/
inductive LanderOp
  | GuardedMove
  | DigCircular
  | DigLinear
  | Deliver
  | Pan
  | Tilt
  | Grind
  | Stow
  | Unstow
  | TakePicture
  deriving DecidableEq

/-- The operation-name strings (`LanderOpNames` / the `Op_*` constants). -/
def opName : LanderOp → String
  | .GuardedMove => "Guarded_move"
  | .DigCircular => "DigCircular"
  | .DigLinear => "DigLinear"
  | .Deliver => "Deliver"
  | .Pan => "PanAntenna"
  | .Tilt => "TiltAntenna"
  | .Grind => "Grind"
  | .Stow => "Stow"
  | .Unstow => "Unstow"
  | .TakePicture => "TakePicture"

/-- The sentinel command id signifying an idle lander operation
(`#define IDLE_ID (-1)`). -/
def IDLE_ID : Int := -1

/-- The `Running` map: one entry per catalog operation, holding the command
id of the in-flight command or `IDLE_ID`. -/
abbrev Registry := LanderOp → Int

/-- The initial registry: every operation idle. -/
def initialRegistry : Registry := fun _ => IDLE_ID

/-- Observable side effects of the core: `publish` notifications, ROS log
lines (tagged by which source log statement produced them), and the PLEXIL
command status callback. -/
inductive Event
  | publishB (topic : String) (val : Bool) (opname : String)
  | publishR (topic : String) (val : ℚ)
  | warnDuplicate (opname : String)
  | warnNotRunning (opname : String)
  | warnActionTimeout (opname : String)
  | errNullClient (opname : String)
  | errTimedOut (opname : String)
  | errFailed (opname : String) (current goal : ℚ)
  | errFaultAsserted (component key : String)
  | infoFaultResolved (component key : String)
  | errUnknownJoint (rosName : String)
  | infoStart (opname : String) (degrees : ℚ)
  | statusCallback (id : Int) (success : Bool)
  deriving DecidableEq

/-- Log lines (as opposed to `publish` notifications and the status
callback). -/
def isLogEvent : Event → Bool
  | .warnDuplicate _ => true
  | .warnNotRunning _ => true
  | .warnActionTimeout _ => true
  | .errNullClient _ => true
  | .errTimedOut _ => true
  | .errFailed _ _ _ => true
  | .errFaultAsserted _ _ => true
  | .infoFaultResolved _ _ => true
  | .errUnknownJoint _ => true
  | .infoStart _ _ => true
  | _ => false

/-- `mark_operation_running (name, id)`: admission control.  Fails with a
warning when the entry is not idle; otherwise stores `id`, publishes
`Running = true`, and succeeds. -/
def mark_operation_running (name : LanderOp) (id : Int) (running : Registry) :
    Bool × Registry × List Event :=
  if running name ≠ IDLE_ID then
    (false, running, [.warnDuplicate (opName name)])
  else
    (true, fun n => if n = name then id else running n,
     [.publishB "Running" true (opName name)])

/-- The C++ expression `! x` applied to an `int` yields `x == 0`, which then
converts back to `int` as `1` or `0`.  Models the left operand of the guard
`if (! Running.at (name) == IDLE_ID)` in `mark_operation_finished`, where
`!` binds tighter than `==`. -/
def cxxNotAsInt (x : Int) : Int := if x = 0 then 1 else 0

/-- `mark_operation_finished (name, id)`: sets the entry idle, publishes
`Running = false` then `Finished = true`, and invokes the status callback
with `(id, true)` when `id` is not the sentinel.  The not-running warning
guard is transcribed with the source's operator precedence. -/
def mark_operation_finished (name : LanderOp) (id : Int) (running : Registry) :
    Registry × List Event :=
  let warnEvents : List Event :=
    if cxxNotAsInt (running name) = IDLE_ID then [.warnNotRunning (opName name)]
    else []
  (fun n => if n = name then IDLE_ID else running n,
   warnEvents
     ++ [.publishB "Running" false (opName name),
         .publishB "Finished" true (opName name)]
     ++ if id ≠ IDLE_ID then [.statusCallback id true] else [])

/-- `OwInterface::operationRunning`: the entry is not idle. -/
def operationRunning (name : LanderOp) (running : Registry) : Bool :=
  decide (running name ≠ IDLE_ID)

/-- `DegreeTolerance = 0.2` degrees. -/
def DegreeTolerance : ℚ := 2 / 10

/-- `PanTiltTimeout = 5.0` seconds. -/
def PanTiltTimeout : ℚ := 5

/-- `within_tolerance (val1, val2, tolerance)`: `fabs (val1 - val2) <=
tolerance`. -/
def within_tolerance (val1 val2 tolerance : ℚ) : Bool :=
  decide (|val1 - val2| ≤ tolerance)

/-- `OwInterface::managePanTilt`: the sample-policy completion detector.
Called from the joint-state callback with the sampled `position` and
`velocity` (both unused by the body), the tracked `current` angle, the
`goal` angle and `start` time recorded at command time, and the current
time (`ros::Time::now()`), here the explicit parameter `now`. -/
def managePanTilt (opname : LanderOp) (position velocity : ℚ)
    (current goal : ℚ) (start now : ℚ) (running : Registry) :
    Registry × List Event :=
  if ¬ operationRunning opname running then (running, [])
  else
    let id := running opname
    let reached := within_tolerance current goal DegreeTolerance
    let expired := decide (now > start + PanTiltTimeout)
    if reached || expired then
      let fin := mark_operation_finished opname id running
      (fin.1,
       fin.2
         ++ (if expired then [.errTimedOut (opName opname)] else [])
         ++ (if !reached then [.errFailed (opName opname) current goal]
             else []))
    else (running, [])

/-- `ActionTimeoutSecs = 180.0` seconds. -/
def ActionTimeoutSecs : ℚ := 180

/-- `OwInterface::runAction` (also the hand-specialized
`guardedMoveAction` body), sequentialized: `clientPresent` is whether the
action-client pointer is non-null, `finishedBeforeTimeout` the outcome of
`waitForResult (180 s)`.  With a null client it logs an error and returns
without completing; otherwise it waits (warning on timeout) and calls
`mark_operation_finished` unconditionally. -/
def runAction (opname : LanderOp) (clientPresent finishedBeforeTimeout : Bool)
    (id : Int) (running : Registry) : Registry × List Event :=
  if clientPresent then
    let warnEvents : List Event :=
      if finishedBeforeTimeout then []
      else [.warnActionTimeout (opName opname)]
    let fin := mark_operation_finished opname id running
    (fin.1, warnEvents ++ fin.2)
  else (running, [.errNullClient (opName opname)])

/-- Result of a full event-policy dispatch: whether admission succeeded,
the final registry, and the emitted events. -/
structure DispatchOutcome where
  admitted : Bool
  running : Registry
  events : List Event

/-- A generic event-policy dispatch entry point (`digLinear`, `stow`,
`guardedMove`, ...): `mark_operation_running`, and on success the detached
action thread running `runAction`, sequentialized to completion. -/
def dispatchAction (opname : LanderOp)
    (clientPresent finishedBeforeTimeout : Bool) (id : Int)
    (running : Registry) : DispatchOutcome :=
  let adm := mark_operation_running opname id running
  if adm.1 then
    let res := runAction opname clientPresent finishedBeforeTimeout id adm.2.1
    ⟨true, res.1, adm.2.2 ++ res.2⟩
  else ⟨false, adm.2.1, adm.2.2⟩

/-- Number of status-callback invocations for command `id` in an event
trace. -/
def countStatusCallbacks (id : Int) (events : List Event) : Nat :=
  events.countP fun e =>
    match e with
    | .statusCallback i _ => decide (i = id)
    | _ => false

/-- `OwInterface::checkFaultMessages`: returns whether the stored flag must
flip, logging an assertion error or a resolution info line accordingly. -/
def checkFaultMessages (fault_component : String) (msg_val : Nat)
    (key : String) (value : Nat) (b : Bool) : Bool × List Event :=
  if !b && (Nat.land msg_val value == value) then
    (true, [.errFaultAsserted fault_component key])
  else if b && (Nat.land msg_val value != value) then
    (true, [.infoFaultResolved fault_component key])
  else (false, [])

/-- One fault-domain map: entries `(fault key, bit value, asserted flag)`,
as in `systemErrors`, `armErrors`, `powerErrors`, `ptErrors`. -/
abbrev FaultMap := List (String × Nat × Bool)

/-- The common loop body of the four fault callbacks: for each entry, flip
the stored flag when `checkFaultMessages` says so, collecting the log
events in entry order. -/
def processFaultDomain (fault_component : String) (msg_val : Nat) :
    FaultMap → FaultMap × List Event
  | [] => ([], [])
  | (key, value, b) :: rest =>
    let chk := checkFaultMessages fault_component msg_val key value b
    let tail := processFaultDomain fault_component msg_val rest
    ((key, value, if chk.1 then !b else b) :: tail.1, chk.2 ++ tail.2)

/-- The four per-domain fault maps held by `OwInterface`. -/
structure FaultState where
  systemErrors : FaultMap
  armErrors : FaultMap
  powerErrors : FaultMap
  ptErrors : FaultMap
  deriving DecidableEq

/-- `OwInterface::systemFaultMessageCallback`. -/
def systemFaultMessageCallback (msg_val : Nat) (st : FaultState) :
    FaultState × List Event :=
  let r := processFaultDomain "SYSTEM" msg_val st.systemErrors
  ({ st with systemErrors := r.1 }, r.2)

/-- `OwInterface::armFaultCallback`. -/
def armFaultCallback (msg_val : Nat) (st : FaultState) :
    FaultState × List Event :=
  let r := processFaultDomain "ARM" msg_val st.armErrors
  ({ st with armErrors := r.1 }, r.2)

/-- `OwInterface::powerFaultCallback`. -/
def powerFaultCallback (msg_val : Nat) (st : FaultState) :
    FaultState × List Event :=
  let r := processFaultDomain "POWER" msg_val st.powerErrors
  ({ st with powerErrors := r.1 }, r.2)

/-- `OwInterface::antennaFaultCallback`. -/
def antennaFaultCallback (msg_val : Nat) (st : FaultState) :
    FaultState × List Event :=
  let r := processFaultDomain "ANTENNA" msg_val st.ptErrors
  ({ st with ptErrors := r.1 }, r.2)

/-- `enum class Joint`: the fixed joint catalog. -/
inductive Joint
  | shoulder_yaw
  | shoulder_pitch
  | proximal_pitch
  | distal_pitch
  | hand_yaw
  | scoop_yaw
  | antenna_pan
  | antenna_tilt
  | grinder
  deriving DecidableEq

/-- `JointProperties`: ROS name, PLEXIL name, soft and hard torque limits. -/
structure JointProperties where
  rosName : String
  plexilName : String
  softTorqueLimit : ℚ
  hardTorqueLimit : ℚ
  deriving DecidableEq

/-- The `JointPropMap` table. -/
def JointPropMap : Joint → JointProperties
  | .shoulder_yaw => ⟨"j_shou_yaw", "ShoulderYaw", 60, 80⟩
  | .shoulder_pitch => ⟨"j_shou_pitch", "ShoulderPitch", 60, 80⟩
  | .proximal_pitch => ⟨"j_prox_pitch", "ProximalPitch", 60, 80⟩
  | .distal_pitch => ⟨"j_dist_pitch", "DistalPitch", 60, 80⟩
  | .hand_yaw => ⟨"j_hand_yaw", "HandYaw", 60, 80⟩
  | .scoop_yaw => ⟨"j_scoop_yaw", "ScoopYaw", 60, 80⟩
  | .antenna_pan => ⟨"j_ant_pan", "AntennaPan", 30, 30⟩
  | .antenna_tilt => ⟨"j_ant_tilt", "AntennaTilt", 30, 30⟩
  | .grinder => ⟨"j_grinder", "Grinder", 30, 30⟩

/-- The `JointMap` table (ROS JointStates message name to joint), in source
order; its size (9) bounds the joint-state loop. -/
def JointMap : List (String × Joint) :=
  [("j_shou_yaw", .shoulder_yaw),
   ("j_shou_pitch", .shoulder_pitch),
   ("j_prox_pitch", .proximal_pitch),
   ("j_dist_pitch", .distal_pitch),
   ("j_hand_yaw", .hand_yaw),
   ("j_scoop_yaw", .scoop_yaw),
   ("j_ant_pan", .antenna_pan),
   ("j_ant_tilt", .antenna_tilt),
   ("j_grinder", .grinder)]

/-- One `JointTelemetry` record. -/
structure JointTelemetry where
  position : ℚ
  velocity : ℚ
  effort : ℚ
  deriving DecidableEq

/-- The two torque-limit membership sets. -/
structure TorqueSets where
  JointsAtHardTorqueLimit : Finset String
  JointsAtSoftTorqueLimit : Finset String
  deriving DecidableEq

/-- `handle_overtorque (joint, effort)`: hard limit inserts into the hard
set (soft untouched); else soft limit inserts into the soft set only; else
erase the joint from both sets. -/
def handle_overtorque (joint : Joint) (effort : ℚ) (s : TorqueSets) :
    TorqueSets :=
  let joint_name := (JointPropMap joint).plexilName
  if |effort| ≥ (JointPropMap joint).hardTorqueLimit then
    { s with JointsAtHardTorqueLimit :=
        insert joint_name s.JointsAtHardTorqueLimit }
  else if |effort| ≥ (JointPropMap joint).softTorqueLimit then
    { s with JointsAtSoftTorqueLimit :=
        insert joint_name s.JointsAtSoftTorqueLimit }
  else
    { JointsAtHardTorqueLimit := s.JointsAtHardTorqueLimit.erase joint_name,
      JointsAtSoftTorqueLimit := s.JointsAtSoftTorqueLimit.erase joint_name }

/-- The mutable interface state touched by the antenna entry points and the
joint-state callback: the registry, the pan/tilt tracking members of
`OwInterface`, the joint telemetry table, and the torque sets. -/
structure IfaceState where
  running : Registry
  m_currentPan : ℚ
  m_currentTilt : ℚ
  m_goalPan : ℚ
  m_goalTilt : ℚ
  m_panStart : ℚ
  m_tiltStart : ℚ
  jointTelemetryOf : Joint → JointTelemetry
  torque : TorqueSets

/-- `antenna_op (opname, degrees, pub, id)`: admission, then the start log
and the command publication (recorded by its degree value; the source
publishes `degrees * D2R` radians). -/
def antenna_op (opname : LanderOp) (degrees : ℚ) (id : Int)
    (st : IfaceState) : IfaceState × List Event :=
  let adm := mark_operation_running opname id st.running
  if adm.1 then
    ({ st with running := adm.2.1 },
     adm.2.2 ++ [.infoStart (opName opname) degrees])
  else (st, adm.2.2)

/-- `OwInterface::tiltAntenna (degrees, id)`: stores the goal and start
time, then runs `antenna_op`.  `now` is `ros::Time::now()`. -/
def tiltAntenna (degrees : ℚ) (id : Int) (now : ℚ) (st : IfaceState) :
    IfaceState × List Event :=
  antenna_op .Tilt degrees id
    { st with m_goalTilt := degrees, m_tiltStart := now }

/-- `OwInterface::panAntenna (degrees, id)`: stores the goal and start
time, then runs `antenna_op`.  `now` is `ros::Time::now()`. -/
def panAntenna (degrees : ℚ) (id : Int) (now : ℚ) (st : IfaceState) :
    IfaceState × List Event :=
  antenna_op .Pan degrees id
    { st with m_goalPan := degrees, m_panStart := now }

/-- A `sensor_msgs::JointState` message: parallel name, position, velocity
and effort arrays. -/
structure JointStateMsg where
  name : List String
  position : List ℚ
  velocity : List ℚ
  effort : List ℚ
  deriving DecidableEq

/-- One iteration of the `jointStatesCallback` loop at index `i`.  A
`none` result models an out-of-bounds `std::vector` access (undefined
behavior in the source).  A name not in `JointMap` logs an error and
leaves the state unchanged. -/
def jointStatesStep (msg : JointStateMsg) (now : ℚ) (i : Nat)
    (st : IfaceState) : Option (IfaceState × List Event) := do
  let ros_name ← msg.name.get? i
  match List.lookup ros_name JointMap with
  | some joint => do
    let position ← msg.position.get? i
    let velocity ← msg.velocity.get? i
    let effort ← msg.effort.get? i
    let pt :=
      if joint = Joint.antenna_pan then
        managePanTilt .Pan position velocity st.m_currentPan st.m_goalPan
          st.m_panStart now st.running
      else if joint = Joint.antenna_tilt then
        managePanTilt .Tilt position velocity st.m_currentTilt st.m_goalTilt
          st.m_tiltStart now st.running
      else (st.running, [])
    let plexil_name := (JointPropMap joint).plexilName
    some
      ({ st with
          running := pt.1,
          jointTelemetryOf := fun j =>
            if j = joint then ⟨position, velocity, effort⟩
            else st.jointTelemetryOf j,
          torque := handle_overtorque joint effort st.torque },
       pt.2
         ++ [.publishR (plexil_name ++ "Position") position,
             .publishR (plexil_name ++ "Velocity") velocity,
             .publishR (plexil_name ++ "Effort") effort])
  | none => some (st, [.errUnknownJoint ros_name])

/-- The joint-state loop over a list of indices, threading state and
accumulating events; `none` (an out-of-bounds access) aborts. -/
def jointStatesLoop (msg : JointStateMsg) (now : ℚ) :
    List Nat → IfaceState × List Event → Option (IfaceState × List Event)
  | [], acc => some acc
  | i :: rest, acc =>
    match jointStatesStep msg now i acc.1 with
    | none => none
    | some r => jointStatesLoop msg now rest (r.1, acc.2 ++ r.2)

/-- `OwInterface::jointStatesCallback`: the loop `for (i = 0; i <
JointMap.size(); i++)` over the message arrays; indices beyond
`JointMap.size() - 1` are never visited. -/
def jointStatesCallback (msg : JointStateMsg) (now : ℚ) (st : IfaceState) :
    Option (IfaceState × List Event) :=
  jointStatesLoop msg now (List.range JointMap.length) (st, [])

/-- A registry with a single operation running. -/
def regWith (op : LanderOp) (id : Int) : Registry :=
  fun n => if n = op then id else IDLE_ID

/-- A registry with a tilt (id 7) and a pan (id 9) both in flight. -/
def regPanTilt : Registry :=
  fun n => if n = .Tilt then 7 else if n = .Pan then 9 else IDLE_ID

/-- Default joint telemetry table. -/
def zeroTelemetry : Joint → JointTelemetry := fun _ => ⟨0, 0, 0⟩

/-- Concrete interface state with a tilt command (id 7, goal 30°, started
at t = 0) in flight. -/
def tiltBusyState : IfaceState :=
  { running := regWith .Tilt 7, m_currentPan := 0, m_currentTilt := 0,
    m_goalPan := 0, m_goalTilt := 30, m_panStart := 0, m_tiltStart := 0,
    jointTelemetryOf := zeroTelemetry, torque := ⟨∅, ∅⟩ }

/-- Concrete interface state with a tilt (id 7) and a pan (id 9) in
flight. -/
def panTiltBusyState : IfaceState :=
  { running := regPanTilt, m_currentPan := 0, m_currentTilt := 0,
    m_goalPan := 10, m_goalTilt := 30, m_panStart := 1, m_tiltStart := 0,
    jointTelemetryOf := zeroTelemetry, torque := ⟨∅, ∅⟩ }

/-- Concrete all-idle interface state. -/
def idleState : IfaceState :=
  { running := initialRegistry, m_currentPan := 0, m_currentTilt := 0,
    m_goalPan := 0, m_goalTilt := 0, m_panStart := 0, m_tiltStart := 0,
    jointTelemetryOf := zeroTelemetry, torque := ⟨∅, ∅⟩ }

/-- A joint-state batch with only 8 entries (one short of the catalog). -/
def shortMsg : JointStateMsg :=
  { name := ["j_shou_yaw", "j_shou_pitch", "j_prox_pitch", "j_dist_pitch",
             "j_hand_yaw", "j_scoop_yaw", "j_ant_pan", "j_ant_tilt"],
    position := [0, 0, 0, 0, 0, 0, 0, 0],
    velocity := [0, 0, 0, 0, 0, 0, 0, 0],
    effort := [0, 0, 0, 0, 0, 0, 0, 0] }

/-- A complete joint-state batch of exactly 9 entries. -/
def fullMsg : JointStateMsg :=
  { name := ["j_shou_yaw", "j_shou_pitch", "j_prox_pitch", "j_dist_pitch",
             "j_hand_yaw", "j_scoop_yaw", "j_ant_pan", "j_ant_tilt",
             "j_grinder"],
    position := [1, 2, 3, 4, 5, 6, 7, 8, 9],
    velocity := [0, 0, 0, 0, 0, 0, 0, 0, 0],
    effort := [0, 0, 0, 0, 0, 0, 0, 0, 0] }

/-- A batch whose first entry names a joint outside the catalog. -/
def bogusMsg : JointStateMsg :=
  { name := ["j_bogus", "j_shou_pitch", "j_prox_pitch", "j_dist_pitch",
             "j_hand_yaw", "j_scoop_yaw", "j_ant_pan", "j_ant_tilt",
             "j_grinder"],
    position := [1, 2, 3, 4, 5, 6, 7, 8, 9],
    velocity := [0, 0, 0, 0, 0, 0, 0, 0, 0],
    effort := [0, 0, 0, 0, 0, 0, 0, 0, 0] }

/-- The C++ int-negation of any value is `0` or `1`, never the sentinel
`-1`: the not-running guard in `mark_operation_finished` can never fire. -/
lemma cxxNotAsInt_ne_idle (x : Int) : cxxNotAsInt x ≠ IDLE_ID := by
  unfold cxxNotAsInt IDLE_ID
  split <;> decide

/-- The event list of `mark_operation_finished`, with the dead warning
guard eliminated. -/
lemma mark_operation_finished_events (name : LanderOp) (id : Int)
    (running : Registry) :
    (mark_operation_finished name id running).2
      = [.publishB "Running" false (opName name),
         .publishB "Finished" true (opName name)]
        ++ if id ≠ IDLE_ID then [.statusCallback id true] else [] := by
  simp [mark_operation_finished, cxxNotAsInt_ne_idle (running name)]

/-- C1: a second `mark_operation_running` on a name already running
returns `false` after a warning and changes no registry state, in
particular the first command id; on an idle name it stores the command id,
publishes `Running = true` for that name only, and returns `true`, after
which no further call for that name can succeed until completion. -/
theorem mark_running_contract (name : LanderOp) (id : Int)
    (running : Registry) :
    (running name ≠ IDLE_ID →
      mark_operation_running name id running
        = (false, running, [.warnDuplicate (opName name)]))
    ∧ (running name = IDLE_ID →
      (mark_operation_running name id running).1 = true
      ∧ (mark_operation_running name id running).2.1 name = id
      ∧ (∀ other, other ≠ name →
          (mark_operation_running name id running).2.1 other = running other)
      ∧ (mark_operation_running name id running).2.2
          = [.publishB "Running" true (opName name)])
    ∧ (running name = IDLE_ID → id ≠ IDLE_ID → ∀ id2,
      (mark_operation_running name id2
          ((mark_operation_running name id running).2.1)).1 = false
      ∧ (mark_operation_running name id2
          ((mark_operation_running name id running).2.1)).2.1 name = id) := by
  refine ⟨fun h => ?_, fun h => ⟨?_, ?_, fun other ho => ?_, ?_⟩,
    fun h hid id2 => ⟨?_, ?_⟩⟩
  · simp [mark_operation_running, h]
  · simp [mark_operation_running, h]
  · simp [mark_operation_running, h]
  · simp [mark_operation_running, h, ho]
  · simp [mark_operation_running, h]
  · simp [mark_operation_running, h, hid]
  · simp [mark_operation_running, h, hid]

/-- Witness for C1: `DigLinear` is admitted with id 7, and a second
request with id 8 is rejected with id 7 intact. -/
theorem mark_running_contract_witness :
    (mark_operation_running .DigLinear 7 initialRegistry).1 = true
    ∧ (mark_operation_running .DigLinear 7 initialRegistry).2.1 .DigLinear = 7
    ∧ (mark_operation_running .DigLinear 8
        ((mark_operation_running .DigLinear 7 initialRegistry).2.1)).1 = false
    ∧ (mark_operation_running .DigLinear 8
        ((mark_operation_running .DigLinear 7 initialRegistry).2.1)).2.1
          .DigLinear = 7 := by
  have h := mark_running_contract .DigLinear 7 initialRegistry
  have h2 := h.2.1 (by decide)
  have h3 := h.2.2 (by decide) (by decide) 8
  exact ⟨h2.1, h2.2.1, h3.1, h3.2⟩

/-- C5: `mark_operation_finished` sets the entry idle (touching no other
entry), emits `Running = false` then `Finished = true` in that order, and
invokes the status callback exactly when the command id is not the
sentinel; every callback it emits reports success. -/
theorem mark_finished_contract (name : LanderOp) (id : Int)
    (running : Registry) :
    (mark_operation_finished name id running).1 name = IDLE_ID
    ∧ (∀ other, other ≠ name →
        (mark_operation_finished name id running).1 other = running other)
    ∧ (mark_operation_finished name id running).2
        = [.publishB "Running" false (opName name),
           .publishB "Finished" true (opName name)]
          ++ (if id ≠ IDLE_ID then [.statusCallback id true] else [])
    ∧ (∀ i s,
        Event.statusCallback i s ∈ (mark_operation_finished name id running).2
          → i = id ∧ s = true ∧ id ≠ IDLE_ID) := by
  refine ⟨?_, fun other ho => ?_, mark_operation_finished_events name id running,
    fun i s hm => ?_⟩
  · simp [mark_operation_finished]
  · simp [mark_operation_finished, ho]
  · rw [mark_operation_finished_events] at hm
    by_cases hid : id = IDLE_ID
    · simp [hid] at hm
    · simp [hid] at hm
      exact ⟨hm.1, hm.2, hid⟩

/-- Witness for C5: completing `Stow` with command id 7 from a registry
where it is running. -/
theorem mark_finished_contract_witness :
    (mark_operation_finished .Stow 7 (regWith .Stow 7)).1 .Stow = IDLE_ID
    ∧ (mark_operation_finished .Stow 7 (regWith .Stow 7)).1 .Grind
        = regWith .Stow 7 .Grind
    ∧ (mark_operation_finished .Stow 7 (regWith .Stow 7)).2
        = [.publishB "Running" false "Stow", .publishB "Finished" true "Stow",
           .statusCallback 7 true]
    ∧ ((7 : Int) = 7 ∧ true = true ∧ (7 : Int) ≠ IDLE_ID) := by
  have h := mark_finished_contract .Stow 7 (regWith .Stow 7)
  refine ⟨h.1, h.2.1 .Grind (by decide), ?_, h.2.2.2 7 true ?_⟩
  · rw [h.2.2.1]
    decide
  · rw [h.2.2.1]
    decide

/-- C6 counterexample: completing the already-idle `Stow` with command id
5 logs nothing (the warning guard is dead code by operator precedence) and
is not a no-op: both notifications are emitted and the status callback is
invoked. -/
theorem complete_idle_counterexample :
    (mark_operation_finished .Stow 5 initialRegistry).2
      = [.publishB "Running" false "Stow", .publishB "Finished" true "Stow",
         .statusCallback 5 true]
    ∧ (mark_operation_finished .Stow 5 initialRegistry).2.filter isLogEvent
        = []
    ∧ Event.statusCallback 5 true
        ∈ (mark_operation_finished .Stow 5 initialRegistry).2 := by
  decide

/-- C6 amended: completing an already-idle operation logs nothing (the
guard `! Running.at (name) == IDLE_ID` negates first, so it never holds)
and otherwise behaves exactly like a normal completion: the entry is
(re)set to idle and the notifications, and the status callback when the
command id is not the sentinel, are all emitted. -/
theorem complete_idle_amended (name : LanderOp) (id : Int)
    (running : Registry) (h : running name = IDLE_ID) :
    (mark_operation_finished name id running).2.filter isLogEvent = []
    ∧ (mark_operation_finished name id running).1 name = IDLE_ID
    ∧ (mark_operation_finished name id running).2
        = [.publishB "Running" false (opName name),
           .publishB "Finished" true (opName name)]
          ++ (if id ≠ IDLE_ID then [.statusCallback id true] else []) := by
  refine ⟨?_, ?_, mark_operation_finished_events name id running⟩
  · rw [mark_operation_finished_events]
    by_cases hid : id = IDLE_ID <;> simp [hid, isLogEvent]
  · simp [mark_operation_finished]

/-- Witness for the amended C6, at the already-idle `Stow` with id 5. -/
theorem complete_idle_amended_witness :
    (mark_operation_finished .Stow 5 initialRegistry).2.filter isLogEvent = []
    ∧ (mark_operation_finished .Stow 5 initialRegistry).1 .Stow = IDLE_ID
    ∧ (mark_operation_finished .Stow 5 initialRegistry).2
        = [.publishB "Running" false (opName .Stow),
           .publishB "Finished" true (opName .Stow)]
          ++ (if (5 : Int) ≠ IDLE_ID then [.statusCallback 5 true] else []) :=
  complete_idle_amended .Stow 5 initialRegistry (by decide)

/-- C2 counterexample: a `DigLinear` dispatch with command id 7 against a
null action client is successfully admitted, yet its whole lifecycle
invokes the status callback zero times, not exactly once. -/
theorem callback_exactly_once_counterexample :
    (dispatchAction .DigLinear false true 7 initialRegistry).admitted = true
    ∧ countStatusCallbacks 7
        (dispatchAction .DigLinear false true 7 initialRegistry).events
        = 0 := by
  decide

/-- C2 amended: for every successfully admitted non-sentinel command id
whose generic-action dispatch finds a non-null backend client, the status
callback is invoked exactly once over the dispatch lifecycle, whether or
not the 180-second wait timed out. -/
theorem callback_exactly_once_amended (opname : LanderOp)
    (finishedBeforeTimeout : Bool) (id : Int) (running : Registry)
    (hid : id ≠ IDLE_ID)
    (hadm : (dispatchAction opname true finishedBeforeTimeout id
        running).admitted = true) :
    countStatusCallbacks id
      (dispatchAction opname true finishedBeforeTimeout id running).events
      = 1 := by
  have hrun : running opname = IDLE_ID := by
    by_contra hne
    simp [dispatchAction, mark_operation_running, hne] at hadm
  cases finishedBeforeTimeout <;>
    simp [dispatchAction, mark_operation_running, runAction,
          mark_operation_finished, hrun, hid, countStatusCallbacks,
          cxxNotAsInt_ne_idle]

/-- Witness for the amended C2: `DigLinear`, id 7, live client, finished
before the timeout. -/
theorem callback_exactly_once_amended_witness :
    countStatusCallbacks 7
      (dispatchAction .DigLinear true true 7 initialRegistry).events = 1 :=
  callback_exactly_once_amended .DigLinear true 7 initialRegistry
    (by decide) (by decide)

/-- C3: a dispatch that reaches the send step with a null backend client
logs an error and returns without completing: the entry keeps the admitted
command id for good (no later dispatch for that name can change it), no
`Finished` notification is emitted, and the status callback is never
invoked for that command. -/
theorem null_client_stuck (opname : LanderOp) (finishedBeforeTimeout : Bool)
    (id : Int) (running : Registry) (hid : id ≠ IDLE_ID)
    (hidle : running opname = IDLE_ID) :
    (dispatchAction opname false finishedBeforeTimeout id
        running).admitted = true
    ∧ (dispatchAction opname false finishedBeforeTimeout id
        running).running opname = id
    ∧ Event.errNullClient (opName opname)
        ∈ (dispatchAction opname false finishedBeforeTimeout id
            running).events
    ∧ countStatusCallbacks id
        (dispatchAction opname false finishedBeforeTimeout id
          running).events = 0
    ∧ Event.publishB "Finished" true (opName opname)
        ∉ (dispatchAction opname false finishedBeforeTimeout id
            running).events
    ∧ (∀ clientPresent2 fbt2 id2,
        (dispatchAction opname clientPresent2 fbt2 id2
            ((dispatchAction opname false finishedBeforeTimeout id
              running).running)).admitted = false
        ∧ (dispatchAction opname clientPresent2 fbt2 id2
            ((dispatchAction opname false finishedBeforeTimeout id
              running).running)).running opname = id) := by
  refine ⟨?_, ?_, ?_, ?_, ?_, fun clientPresent2 fbt2 id2 => ⟨?_, ?_⟩⟩ <;>
    simp [dispatchAction, mark_operation_running, runAction, hidle, hid,
          countStatusCallbacks]

/-- Witness for C3: `GuardedMove` with id 4 and a null client. -/
theorem null_client_stuck_witness :
    (dispatchAction .GuardedMove false true 4 initialRegistry).admitted = true
    ∧ (dispatchAction .GuardedMove false true 4 initialRegistry).running
        .GuardedMove = 4
    ∧ Event.errNullClient (opName .GuardedMove)
        ∈ (dispatchAction .GuardedMove false true 4 initialRegistry).events
    ∧ countStatusCallbacks 4
        (dispatchAction .GuardedMove false true 4 initialRegistry).events = 0
    ∧ Event.publishB "Finished" true (opName .GuardedMove)
        ∉ (dispatchAction .GuardedMove false true 4 initialRegistry).events
    ∧ (dispatchAction .GuardedMove true true 5
        ((dispatchAction .GuardedMove false true 4
          initialRegistry).running)).admitted = false
    ∧ (dispatchAction .GuardedMove true true 5
        ((dispatchAction .GuardedMove false true 4
          initialRegistry).running)).running .GuardedMove = 4 := by
  have h := null_client_stuck .GuardedMove true 4 initialRegistry
    (by decide) (by decide)
  have h6 := h.2.2.2.2.2 true true 5
  exact ⟨h.1, h.2.1, h.2.2.1, h.2.2.2.1, h.2.2.2.2.1, h6.1, h6.2⟩

/-- C4: while the pan/tilt operation is running, a sample completes it
exactly when the tracked angle is within 0.2° of the goal or more than 5 s
have elapsed since the start (and then fires exactly one status callback);
the timeout error appears exactly when the timeout expired, and the
failure error with the final and goal values appears exactly when
completion happened with the goal not reached; samples while not running,
or samples after a completing one, are no-ops. -/
theorem managePanTilt_contract (opname : LanderOp)
    (position velocity current goal start now : ℚ) (running : Registry) :
    (running opname = IDLE_ID →
      managePanTilt opname position velocity current goal start now running
        = (running, []))
    ∧ (running opname ≠ IDLE_ID →
      (¬ (|current - goal| ≤ DegreeTolerance ∨ start + PanTiltTimeout < now) →
        managePanTilt opname position velocity current goal start now running
          = (running, []))
      ∧ ((|current - goal| ≤ DegreeTolerance ∨ start + PanTiltTimeout < now) →
        (managePanTilt opname position velocity current goal start now
            running).1 opname = IDLE_ID
        ∧ countStatusCallbacks (running opname)
            (managePanTilt opname position velocity current goal start now
              running).2 = 1
        ∧ (∀ p2 v2 c2 g2 s2 n2,
            managePanTilt opname p2 v2 c2 g2 s2 n2
              (managePanTilt opname position velocity current goal start now
                running).1
              = ((managePanTilt opname position velocity current goal start
                  now running).1, [])))
      ∧ (Event.errTimedOut (opName opname)
          ∈ (managePanTilt opname position velocity current goal start now
              running).2
        ↔ start + PanTiltTimeout < now)
      ∧ (Event.errFailed (opName opname) current goal
          ∈ (managePanTilt opname position velocity current goal start now
              running).2
        ↔ (start + PanTiltTimeout < now
           ∧ ¬ |current - goal| ≤ DegreeTolerance))) := by
  by_cases hrun : running opname = IDLE_ID
  · refine ⟨fun _ => ?_, fun hne => absurd hrun hne⟩
    simp [managePanTilt, operationRunning, hrun]
  · refine ⟨fun h => absurd h hrun, fun _ => ⟨fun hno => ?_, fun hyes => ?_,
      ?_, ?_⟩⟩
    · rw [not_or] at hno
      simp [managePanTilt, operationRunning, hrun, within_tolerance,
            hno.1, hno.2]
    · have hev := mark_operation_finished_events opname (running opname)
        running
      by_cases hr : |current - goal| ≤ DegreeTolerance <;>
        by_cases he : start + PanTiltTimeout < now
      · refine ⟨?_, ?_, fun p2 v2 c2 g2 s2 n2 => ?_⟩ <;>
          simp [managePanTilt, operationRunning, hrun, within_tolerance,
                hr, he, mark_operation_finished, cxxNotAsInt_ne_idle,
                countStatusCallbacks]
      · refine ⟨?_, ?_, fun p2 v2 c2 g2 s2 n2 => ?_⟩ <;>
          simp [managePanTilt, operationRunning, hrun, within_tolerance,
                hr, he, mark_operation_finished, cxxNotAsInt_ne_idle,
                countStatusCallbacks]
      · refine ⟨?_, ?_, fun p2 v2 c2 g2 s2 n2 => ?_⟩ <;>
          simp [managePanTilt, operationRunning, hrun, within_tolerance,
                hr, he, mark_operation_finished, cxxNotAsInt_ne_idle,
                countStatusCallbacks]
      · exact absurd hyes (by simp [hr, he])
    · by_cases hr : |current - goal| ≤ DegreeTolerance <;>
        by_cases he : start + PanTiltTimeout < now <;>
        simp [managePanTilt, operationRunning, hrun, within_tolerance,
              hr, he, mark_operation_finished_events, hrun]
    · by_cases hr : |current - goal| ≤ DegreeTolerance <;>
        by_cases he : start + PanTiltTimeout < now <;>
        simp [managePanTilt, operationRunning, hrun, within_tolerance,
              hr, he, mark_operation_finished_events, hrun]

/-- Witness for C4: a pan (id 7, goal 30°) completes on a sample with the
tracked angle at 29.95° before the timeout with exactly one callback,
later samples are no-ops, a far-away early sample is a no-op, and a sample
for the idle tilt operation is a no-op. -/
theorem managePanTilt_contract_witness :
    (managePanTilt .Pan 0 0 (599/20) 30 0 1 (regWith .Pan 7)).1 .Pan
        = IDLE_ID
    ∧ countStatusCallbacks 7
        (managePanTilt .Pan 0 0 (599/20) 30 0 1 (regWith .Pan 7)).2 = 1
    ∧ managePanTilt .Pan 0 0 (599/20) 30 0 2
        ((managePanTilt .Pan 0 0 (599/20) 30 0 1 (regWith .Pan 7)).1)
        = ((managePanTilt .Pan 0 0 (599/20) 30 0 1 (regWith .Pan 7)).1, [])
    ∧ managePanTilt .Pan 0 0 10 30 0 1 (regWith .Pan 7)
        = (regWith .Pan 7, [])
    ∧ managePanTilt .Tilt 0 0 40 30 0 1 (regWith .Pan 7)
        = (regWith .Pan 7, []) := by
  have h := managePanTilt_contract .Pan 0 0 (599/20) 30 0 1 (regWith .Pan 7)
  have hc := (h.2 (by decide)).2.1
    (by norm_num [DegreeTolerance, PanTiltTimeout, abs_le])
  have hno := (managePanTilt_contract .Pan 0 0 10 30 0 1
    (regWith .Pan 7)).2 (by decide)
  have hidle := (managePanTilt_contract .Tilt 0 0 40 30 0 1
    (regWith .Pan 7)).1 (by decide)
  exact ⟨hc.1, by simpa [regWith] using hc.2.1, hc.2.2 0 0 (599/20) 30 0 2,
    hno.1 (by norm_num [DegreeTolerance, PanTiltTimeout, abs_le]), hidle⟩

/-- `checkFaultMessages` asks for a flip exactly when the stored flag
differs from the bit test. -/
lemma checkFaultMessages_fst (c : String) (m : Nat) (k : String) (v : Nat)
    (b : Bool) :
    (checkFaultMessages c m k v b).1
      = (b != decide (Nat.land m v = v)) := by
  cases b <;> by_cases h : Nat.land m v = v <;>
    simp [checkFaultMessages, h]

/-- `checkFaultMessages` logs exactly when it asks for a flip. -/
lemma checkFaultMessages_events_length (c : String) (m : Nat) (k : String)
    (v : Nat) (b : Bool) :
    (checkFaultMessages c m k v b).2.length
      = if b != decide (Nat.land m v = v) then 1 else 0 := by
  cases b <;> by_cases h : Nat.land m v = v <;>
    simp [checkFaultMessages, h]

/-- After a fault-domain pass every stored flag equals the bit test of the
processed bitmask. -/
lemma processFaultDomain_fst (c : String) (m : Nat) :
    ∀ errors : FaultMap,
      (processFaultDomain c m errors).1
        = errors.map fun e => (e.1, e.2.1, decide (Nat.land m e.2.1 = e.2.1))
  | [] => rfl
  | (key, value, b) :: rest => by
    have ih := processFaultDomain_fst c m rest
    cases b <;> by_cases hP : Nat.land m value = value <;>
      simp [processFaultDomain, checkFaultMessages_fst, ih, hP]

/-- A fault-domain pass logs one event per entry whose stored flag differs
from the bit test. -/
lemma processFaultDomain_events_length (c : String) (m : Nat) :
    ∀ errors : FaultMap,
      (processFaultDomain c m errors).2.length
        = errors.countP fun e => e.2.2 != decide (Nat.land m e.2.1 = e.2.1)
  | [] => rfl
  | (key, value, b) :: rest => by
    have ih := processFaultDomain_events_length c m rest
    simp only [processFaultDomain, List.length_append, ih,
      checkFaultMessages_events_length, List.countP_cons]
    cases hb : b != decide (Nat.land m value = value) <;> simp [hb] <;> omega

/-- A fault-domain pass over entries that already match the bitmask is the
identity and logs nothing. -/
lemma processFaultDomain_stable (c : String) (m : Nat) :
    ∀ errors : FaultMap,
      (∀ e ∈ errors, e.2.2 = decide (Nat.land m e.2.1 = e.2.1)) →
      processFaultDomain c m errors = (errors, [])
  | [], _ => rfl
  | (key, value, b) :: rest, h => by
    have hb : b = decide (Nat.land m value = value) :=
      h (key, value, b) (by simp)
    have ih := processFaultDomain_stable c m rest
      fun e he => h e (List.mem_cons_of_mem _ he)
    have hchk : checkFaultMessages c m key value b = (false, []) := by
      rw [hb]
      by_cases ht : Nat.land m value = value <;> simp [checkFaultMessages, ht]
    simp [processFaultDomain, hchk, ih]

/-- C7: after a bitmask pass each stored flag equals the bit test
`(bitmask AND bit) == bit`; one log event is emitted per entry whose test
result differs from the stored flag (so re-processing the identical
bitmask changes nothing and logs nothing); and each domain callback leaves
every other domain's map untouched. -/
theorem fault_tracker_contract (fault_component : String) (msg_val : Nat)
    (errors : FaultMap) (st : FaultState) :
    ((processFaultDomain fault_component msg_val errors).1
      = errors.map fun e => (e.1, e.2.1, decide (Nat.land msg_val e.2.1 = e.2.1)))
    ∧ ((processFaultDomain fault_component msg_val errors).2.length
      = errors.countP fun e => e.2.2 != decide (Nat.land msg_val e.2.1 = e.2.1))
    ∧ (processFaultDomain fault_component msg_val
        ((processFaultDomain fault_component msg_val errors).1)
      = ((processFaultDomain fault_component msg_val errors).1, []))
    ∧ ((systemFaultMessageCallback msg_val st).1.armErrors = st.armErrors
       ∧ (systemFaultMessageCallback msg_val st).1.powerErrors = st.powerErrors
       ∧ (systemFaultMessageCallback msg_val st).1.ptErrors = st.ptErrors)
    ∧ ((armFaultCallback msg_val st).1.systemErrors = st.systemErrors
       ∧ (armFaultCallback msg_val st).1.powerErrors = st.powerErrors
       ∧ (armFaultCallback msg_val st).1.ptErrors = st.ptErrors)
    ∧ ((powerFaultCallback msg_val st).1.systemErrors = st.systemErrors
       ∧ (powerFaultCallback msg_val st).1.armErrors = st.armErrors
       ∧ (powerFaultCallback msg_val st).1.ptErrors = st.ptErrors)
    ∧ ((antennaFaultCallback msg_val st).1.systemErrors = st.systemErrors
       ∧ (antennaFaultCallback msg_val st).1.armErrors = st.armErrors
       ∧ (antennaFaultCallback msg_val st).1.powerErrors = st.powerErrors) := by
  refine ⟨processFaultDomain_fst _ _ _,
    processFaultDomain_events_length _ _ _, ?_, ?_, ?_, ?_, ?_⟩
  · apply processFaultDomain_stable
    rw [processFaultDomain_fst]
    intro e he
    rcases List.mem_map.mp he with ⟨a, _, rfl⟩
    rfl
  · exact ⟨rfl, rfl, rfl⟩
  · exact ⟨rfl, rfl, rfl⟩
  · exact ⟨rfl, rfl, rfl⟩
  · exact ⟨rfl, rfl, rfl⟩

/-- C8: an effort at or above the hard torque limit adds the joint to the
hard-limit set and leaves the soft-limit set untouched; an effort below
the hard limit but at or above the soft limit adds it to the soft-limit
set only; a lower effort removes it from both sets; other joints'
memberships are never disturbed. -/
theorem handle_overtorque_contract (joint : Joint) (effort : ℚ)
    (s : TorqueSets) (x : String) :
    ((JointPropMap joint).hardTorqueLimit ≤ |effort| →
      (JointPropMap joint).plexilName
          ∈ (handle_overtorque joint effort s).JointsAtHardTorqueLimit
      ∧ (handle_overtorque joint effort s).JointsAtSoftTorqueLimit
          = s.JointsAtSoftTorqueLimit
      ∧ (x ≠ (JointPropMap joint).plexilName →
          (x ∈ (handle_overtorque joint effort s).JointsAtHardTorqueLimit
            ↔ x ∈ s.JointsAtHardTorqueLimit)))
    ∧ (|effort| < (JointPropMap joint).hardTorqueLimit →
       (JointPropMap joint).softTorqueLimit ≤ |effort| →
      (JointPropMap joint).plexilName
          ∈ (handle_overtorque joint effort s).JointsAtSoftTorqueLimit
      ∧ (handle_overtorque joint effort s).JointsAtHardTorqueLimit
          = s.JointsAtHardTorqueLimit
      ∧ (x ≠ (JointPropMap joint).plexilName →
          (x ∈ (handle_overtorque joint effort s).JointsAtSoftTorqueLimit
            ↔ x ∈ s.JointsAtSoftTorqueLimit)))
    ∧ (|effort| < (JointPropMap joint).softTorqueLimit →
      (JointPropMap joint).plexilName
          ∉ (handle_overtorque joint effort s).JointsAtHardTorqueLimit
      ∧ (JointPropMap joint).plexilName
          ∉ (handle_overtorque joint effort s).JointsAtSoftTorqueLimit
      ∧ (x ≠ (JointPropMap joint).plexilName →
          (x ∈ (handle_overtorque joint effort s).JointsAtHardTorqueLimit
            ↔ x ∈ s.JointsAtHardTorqueLimit)
          ∧ (x ∈ (handle_overtorque joint effort s).JointsAtSoftTorqueLimit
            ↔ x ∈ s.JointsAtSoftTorqueLimit))) := by
  refine ⟨fun hh => ?_, fun hnh hs => ?_, fun hns => ?_⟩
  · simp [handle_overtorque, hh, Finset.mem_insert]
    intro hx
    simp [Finset.mem_insert, hx]
  · have hnh2 : ¬ (JointPropMap joint).hardTorqueLimit ≤ |effort| :=
      not_le.mpr hnh
    simp [handle_overtorque, hnh2, hs, Finset.mem_insert]
    intro hx
    simp [Finset.mem_insert, hx]
  · have hnh : ¬ (JointPropMap joint).hardTorqueLimit ≤ |effort| := by
      intro hcon
      have hsh : (JointPropMap joint).softTorqueLimit
          ≤ (JointPropMap joint).hardTorqueLimit := by
        cases joint <;> norm_num [JointPropMap]
      exact absurd (le_trans hsh hcon) (not_le.mpr hns)
    simp [handle_overtorque, hnh, not_le.mpr hns, Finset.mem_erase]
    intro hx
    simp [Finset.mem_erase, hx]

/-- Witness for C8: on `ShoulderYaw` (limits 60/80) from empty sets,
effort 85 populates the hard set leaving the soft set empty, effort 65
populates only the soft set, and effort 10 leaves a populated joint out of
both sets. -/
theorem handle_overtorque_contract_witness :
    "ShoulderYaw" ∈ (handle_overtorque .shoulder_yaw 85
        ⟨∅, ∅⟩).JointsAtHardTorqueLimit
    ∧ (handle_overtorque .shoulder_yaw 85 ⟨∅, ∅⟩).JointsAtSoftTorqueLimit
        = (∅ : Finset String)
    ∧ "ShoulderYaw" ∈ (handle_overtorque .shoulder_yaw 65
        ⟨∅, ∅⟩).JointsAtSoftTorqueLimit
    ∧ (handle_overtorque .shoulder_yaw 65 ⟨∅, ∅⟩).JointsAtHardTorqueLimit
        = (∅ : Finset String)
    ∧ "ShoulderYaw" ∉ (handle_overtorque .shoulder_yaw 10
        ⟨{"ShoulderYaw"}, {"ShoulderYaw"}⟩).JointsAtHardTorqueLimit
    ∧ "ShoulderYaw" ∉ (handle_overtorque .shoulder_yaw 10
        ⟨{"ShoulderYaw"}, {"ShoulderYaw"}⟩).JointsAtSoftTorqueLimit := by
  have h85 := (handle_overtorque_contract .shoulder_yaw 85 ⟨∅, ∅⟩ "x").1
    (by norm_num [JointPropMap])
  have h65 := (handle_overtorque_contract .shoulder_yaw 65 ⟨∅, ∅⟩ "x").2.1
    (by norm_num [JointPropMap]) (by norm_num [JointPropMap])
  have h10 := (handle_overtorque_contract .shoulder_yaw 10
    ⟨{"ShoulderYaw"}, {"ShoulderYaw"}⟩ "x").2.2
    (by norm_num [JointPropMap])
  exact ⟨h85.1, h85.2.1, h65.1, h65.2.1, h10.1, h10.2.1⟩

/-- C9 counterexample: with a tilt in flight (id 7, goal 30°, start 0), a
second tilt command (90°, id 8, at t = 2) is rejected by admission — yet
the in-flight operation's goal angle (30° before) and start timestamp (0
before) are overwritten to 90° and 2, because `tiltAntenna` stores them
before admission is checked. -/
theorem rejected_tilt_clobbers_goal :
    tiltBusyState.m_goalTilt = 30
    ∧ tiltBusyState.m_tiltStart = 0
    ∧ (tiltAntenna 90 8 2 tiltBusyState).2 = [.warnDuplicate "TiltAntenna"]
    ∧ (tiltAntenna 90 8 2 tiltBusyState).1.running .Tilt = 7
    ∧ (tiltAntenna 90 8 2 tiltBusyState).1.m_goalTilt = 90
    ∧ (tiltAntenna 90 8 2 tiltBusyState).1.m_tiltStart = 2 := by
  refine ⟨rfl, rfl, ?_, ?_, ?_, ?_⟩ <;>
    simp [tiltAntenna, antenna_op, mark_operation_running, tiltBusyState,
      regWith, opName, IDLE_ID]

/-- C9 amended: a pan or tilt command rejected by admission leaves the
registry (hence the in-flight command id) and the other antenna's tracking
state unchanged and publishes no command, but it does overwrite the
rejected operation's own goal angle and start timestamp with the new
command's values, because those members are assigned before admission is
checked. -/
theorem rejected_pan_tilt_amended (degrees : ℚ) (id : Int) (now : ℚ)
    (st : IfaceState) :
    (st.running .Tilt ≠ IDLE_ID →
      (tiltAntenna degrees id now st).1.running = st.running
      ∧ (tiltAntenna degrees id now st).2 = [.warnDuplicate "TiltAntenna"]
      ∧ (tiltAntenna degrees id now st).1.m_goalTilt = degrees
      ∧ (tiltAntenna degrees id now st).1.m_tiltStart = now
      ∧ (tiltAntenna degrees id now st).1.m_goalPan = st.m_goalPan
      ∧ (tiltAntenna degrees id now st).1.m_panStart = st.m_panStart)
    ∧ (st.running .Pan ≠ IDLE_ID →
      (panAntenna degrees id now st).1.running = st.running
      ∧ (panAntenna degrees id now st).2 = [.warnDuplicate "PanAntenna"]
      ∧ (panAntenna degrees id now st).1.m_goalPan = degrees
      ∧ (panAntenna degrees id now st).1.m_panStart = now
      ∧ (panAntenna degrees id now st).1.m_goalTilt = st.m_goalTilt
      ∧ (panAntenna degrees id now st).1.m_tiltStart = st.m_tiltStart) := by
  constructor
  · intro h
    refine ⟨?_, ?_, ?_, ?_, ?_, ?_⟩ <;>
      simp [tiltAntenna, antenna_op, mark_operation_running, opName, h]
  · intro h
    refine ⟨?_, ?_, ?_, ?_, ?_, ?_⟩ <;>
      simp [panAntenna, antenna_op, mark_operation_running, opName, h]

/-- Witness for the amended C9: both antennas busy; a rejected 90° tilt
(id 8, t = 2) and a rejected 50° pan (id 8, t = 2). -/
theorem rejected_pan_tilt_amended_witness :
    ((tiltAntenna 90 8 2 panTiltBusyState).1.running = panTiltBusyState.running
      ∧ (tiltAntenna 90 8 2 panTiltBusyState).2
          = [.warnDuplicate "TiltAntenna"]
      ∧ (tiltAntenna 90 8 2 panTiltBusyState).1.m_goalTilt = 90
      ∧ (tiltAntenna 90 8 2 panTiltBusyState).1.m_tiltStart = 2
      ∧ (tiltAntenna 90 8 2 panTiltBusyState).1.m_goalPan
          = panTiltBusyState.m_goalPan
      ∧ (tiltAntenna 90 8 2 panTiltBusyState).1.m_panStart
          = panTiltBusyState.m_panStart)
    ∧ ((panAntenna 50 8 2 panTiltBusyState).1.running
          = panTiltBusyState.running
      ∧ (panAntenna 50 8 2 panTiltBusyState).2
          = [.warnDuplicate "PanAntenna"]
      ∧ (panAntenna 50 8 2 panTiltBusyState).1.m_goalPan = 50
      ∧ (panAntenna 50 8 2 panTiltBusyState).1.m_panStart = 2
      ∧ (panAntenna 50 8 2 panTiltBusyState).1.m_goalTilt
          = panTiltBusyState.m_goalTilt
      ∧ (panAntenna 50 8 2 panTiltBusyState).1.m_tiltStart
          = panTiltBusyState.m_tiltStart) :=
  ⟨(rejected_pan_tilt_amended 90 8 2 panTiltBusyState).1 (by decide),
   (rejected_pan_tilt_amended 50 8 2 panTiltBusyState).2 (by decide)⟩

/-- An index whose name access is out of bounds aborts the whole
joint-state loop. -/
lemma jointStatesLoop_none (msg : JointStateMsg) (now : ℚ) (i : Nat)
    (hget : msg.name[i]? = none) :
    ∀ l : List Nat, i ∈ l →
      ∀ acc, jointStatesLoop msg now l acc = none
  | [], h, _ => absurd h (List.not_mem_nil i)
  | x :: xs, h, acc => by
    rcases List.mem_cons.mp h with rfl | hmem
    · simp [jointStatesLoop, jointStatesStep, hget]
    · cases hstep : jointStatesStep msg now x acc.1 with
      | none => simp [jointStatesLoop, hstep]
      | some r =>
        simp only [jointStatesLoop, hstep]
        exact jointStatesLoop_none msg now i hget xs hmem _

/-- Two messages whose steps agree on every visited index give equal
joint-state loops. -/
lemma jointStatesLoop_congr (msg1 msg2 : JointStateMsg) (now : ℚ) :
    ∀ l : List Nat,
      (∀ i ∈ l, ∀ st, jointStatesStep msg1 now i st
        = jointStatesStep msg2 now i st) →
      ∀ acc, jointStatesLoop msg1 now l acc = jointStatesLoop msg2 now l acc
  | [], _, _ => rfl
  | x :: xs, h, acc => by
    have hx := h x (List.mem_cons_self x xs) acc.1
    simp only [jointStatesLoop, hx]
    cases hstep : jointStatesStep msg2 now x acc.1 with
    | none => rfl
    | some r =>
      exact jointStatesLoop_congr msg1 msg2 now xs
        (fun i hi st => h i (List.mem_cons_of_mem _ hi) st) _

/-- A loop iteration depends on the message only through the four array
entries at its index. -/
lemma jointStatesStep_congr (msg1 msg2 : JointStateMsg) (now : ℚ) (i : Nat)
    (h1 : msg1.name[i]? = msg2.name[i]?)
    (h2 : msg1.position[i]? = msg2.position[i]?)
    (h3 : msg1.velocity[i]? = msg2.velocity[i]?)
    (h4 : msg1.effort[i]? = msg2.effort[i]?) (st : IfaceState) :
    jointStatesStep msg1 now i st = jointStatesStep msg2 now i st := by
  simp only [jointStatesStep, List.get?_eq_getElem?, h1, h2, h3, h4]

/-- C10: the joint-state callback visits exactly the indices `0..8` of the
message arrays — a batch with fewer than 9 names is an out-of-bounds
access, and entries at index 9 or beyond never influence the result — and
an entry naming a joint outside the catalog logs an error and mutates no
state. -/
theorem jointStates_bounds_contract (msg : JointStateMsg) (now : ℚ)
    (st : IfaceState) (i : Nat) (s : String) :
    (msg.name.length < JointMap.length →
      jointStatesCallback msg now st = none)
    ∧ (msg.name.length = JointMap.length →
       msg.position.length = JointMap.length →
       msg.velocity.length = JointMap.length →
       msg.effort.length = JointMap.length →
       ∀ extraN extraP extraV extraE,
         jointStatesCallback
           ⟨msg.name ++ extraN, msg.position ++ extraP,
            msg.velocity ++ extraV, msg.effort ++ extraE⟩ now st
         = jointStatesCallback msg now st)
    ∧ (msg.name[i]? = some s → List.lookup s JointMap = none →
       jointStatesStep msg now i st = some (st, [.errUnknownJoint s])) := by
  refine ⟨fun hlt => ?_, fun hn hp hv he extraN extraP extraV extraE => ?_,
    fun hget hlook => ?_⟩
  · exact jointStatesLoop_none msg now msg.name.length
      (List.getElem?_eq_none le_rfl)
      (List.range JointMap.length) (List.mem_range.mpr hlt) (st, [])
  · apply jointStatesLoop_congr
    intro j hj st'
    have hjlt := List.mem_range.mp hj
    exact jointStatesStep_congr _ msg now j
      (List.getElem?_append_left (hn ▸ hjlt))
      (List.getElem?_append_left (hp ▸ hjlt))
      (List.getElem?_append_left (hv ▸ hjlt))
      (List.getElem?_append_left (he ▸ hjlt)) st'
  · simp [jointStatesStep, hget, hlook]

/-- Witness for C10: an 8-entry batch aborts out of bounds, a 10th entry
appended to a full batch changes nothing, and an unknown joint name logs
an error and leaves the state untouched. -/
theorem jointStates_bounds_contract_witness :
    jointStatesCallback shortMsg 0 idleState = none
    ∧ jointStatesCallback
        ⟨shortMsg.name ++ ["j_grinder", "j_extra"],
         shortMsg.position ++ [9, 42], shortMsg.velocity ++ [0, 43],
         shortMsg.effort ++ [0, 44]⟩ 0 idleState
      = jointStatesCallback
          ⟨shortMsg.name ++ ["j_grinder"], shortMsg.position ++ [9],
           shortMsg.velocity ++ [0], shortMsg.effort ++ [0]⟩ 0 idleState
    ∧ jointStatesStep bogusMsg 0 0 idleState
      = some (idleState, [.errUnknownJoint "j_bogus"]) := by
  have h1 := (jointStates_bounds_contract shortMsg 0 idleState 0 "").1
    (by decide)
  have h2 := (jointStates_bounds_contract
      ⟨shortMsg.name ++ ["j_grinder"], shortMsg.position ++ [9],
       shortMsg.velocity ++ [0], shortMsg.effort ++ [0]⟩
      0 idleState 0 "").2.1
    (by decide) (by decide) (by decide) (by decide)
    ["j_extra"] [42] [43] [44]
  have h3 := (jointStates_bounds_contract bogusMsg 0 idleState 0
    "j_bogus").2.2 (by decide) (by decide)
  refine ⟨h1, ?_, h3⟩
  have harr : (⟨(shortMsg.name ++ ["j_grinder"]) ++ ["j_extra"],
      (shortMsg.position ++ [9]) ++ [42], (shortMsg.velocity ++ [0]) ++ [43],
      (shortMsg.effort ++ [0]) ++ [44]⟩ : JointStateMsg)
      = ⟨shortMsg.name ++ ["j_grinder", "j_extra"],
         shortMsg.position ++ [9, 42], shortMsg.velocity ++ [0, 43],
         shortMsg.effort ++ [0, 44]⟩ := by
    simp
  rw [← harr]
  exact h2

end OwSpec
